import Mathlib

/-!
Shallow embedding of the BLE GAP connection-admission and
advertising-resumption state machine of `lib/bme68x-esp/src/bme68x_esp_gap.c`
(repository bme68x-zephyr).

The embedding models:
- the shared record `struct conn_mgr` (`flags : u32`, `conn_avail : u8`)
  as `ConnMgr` with `flags : Nat` (bit operations as in C over a 32-bit
  word) and `conn_avail : Nat` reduced modulo `2^8` exactly where the C
  `u8` increments/decrements may wrap;
- `conn_mgr_adv_start` with the outcome of the external primitive
  `bt_le_adv_start` abstracted as a boolean `advOk`;
- the synchronous API `bme68x_esp_gap_adv_start`, with the lock-acquire
  outcome abstracted as `lockFree` and the state-changed callback recorded
  as a list of `(flags, conn_avail)` invocations;
- the Worker loop body `conn_mgr_msgq_recv` for one message: the per-event
  branch, the auto-resume tail, and the `bt_conn_unref` releases it performs;
- the producer callbacks `cb_conn_connected` / `cb_conn_disconnected` /
  `cb_conn_recycled` with the bounded message queue (`K_MSGQ_DEFINE`,
  capacity `CONN_MGR_MAX_MSG`), `bt_conn_ref` retains and dropped
  enqueues, for reference-counting claims.

`CONN_MGR_MAX_CONN` (`CONFIG_BT_MAX_CONN`) is a build-time constant and is
kept as a parameter `maxConn`.
-/

namespace BME68xGap

/-! ### Flag bits (include/bme68x_esp_gap.h) and errno values -/

def BME68X_GAP_CFG_ADV_AUTO : Nat := 1 <<< 0

def BME68X_GAP_STATE_ADV_CONN : Nat := 1 <<< 16

def BME68X_GAP_STATE_CONNECTED : Nat := 1 <<< 17

def BME68X_GAP_STATE_ENETDOWN : Nat := 1 <<< 24

/-- Mask of a 32-bit word: `~m` on a `uint32_t` is `U32_MASK ^^^ m`. -/
def U32_MASK : Nat := 2 ^ 32 - 1

def EBUSY : Int := 16

def EADDRINUSE : Int := 98

def ECONNREFUSED : Int := 111

/-! ### Shared state record (`struct conn_mgr`) -/

/-- The mutable part of `struct conn_mgr`: the `flags` word and the
available-connections counter `conn_avail` (a C `uint8_t`). -/
structure ConnMgr where
  flags : Nat
  conn_avail : Nat
deriving Repr, DecidableEq

/-- `conn_manager_init`: seeds `flags` from the configuration and
`conn_avail = CONN_MGR_MAX_CONN`. -/
def conn_manager_init (maxConn flags0 : Nat) : ConnMgr :=
  { flags := flags0, conn_avail := maxConn }

/-- `conn_mgr_adv_start`: invoke the advertise-start primitive
(`bt_le_adv_start`, success abstracted as `advOk`); on failure set the
`ENETDOWN` error bit and return `-ECONNREFUSED`; on success clear the
error bit, set the `ADV_CONN` bit and return 0. Returns the updated
`flags` word and the C return code. -/
def conn_mgr_adv_start (advOk : Bool) (flags : Nat) : Nat × Int :=
  if advOk then
    ((flags &&& (U32_MASK ^^^ BME68X_GAP_STATE_ENETDOWN)) ||| BME68X_GAP_STATE_ADV_CONN, 0)
  else
    (flags ||| BME68X_GAP_STATE_ENETDOWN, -ECONNREFUSED)

/-- `conn_mgr_release_state`: commit happens in the caller-visible record;
here we record the state-changed callback invocation (the callback is
invoked with the committed pair when registered). -/
def conn_mgr_release_state (cbRegistered : Bool) (flags conn_avail : Nat) :
    List (Nat × Nat) :=
  if cbRegistered then [(flags, conn_avail)] else []

/-- Result of the synchronous API `bme68x_esp_gap_adv_start`: committed
state, C return code, and the list of state-changed callback invocations
performed by the call. -/
structure AdvStartResult where
  mgr : ConnMgr
  rc : Int
  cbCalls : List (Nat × Nat)
deriving Repr, DecidableEq

/-- `bme68x_esp_gap_adv_start`: zero-wait lock acquire (outcome `lockFree`;
on contention return `-EBUSY` without touching state or callback); then
`-EADDRINUSE` if already advertising, `-ECONNREFUSED` if `!conn_avail`,
otherwise `conn_mgr_adv_start`; all non-busy paths commit through
`conn_mgr_release_state`. -/
def bme68x_esp_gap_adv_start (cbRegistered lockFree advOk : Bool) (s : ConnMgr) :
    AdvStartResult :=
  if !lockFree then
    { mgr := s, rc := -EBUSY, cbCalls := [] }
  else if s.flags &&& BME68X_GAP_STATE_ADV_CONN ≠ 0 then
    { mgr := { flags := s.flags, conn_avail := s.conn_avail }, rc := -EADDRINUSE,
      cbCalls := conn_mgr_release_state cbRegistered s.flags s.conn_avail }
  else if s.conn_avail = 0 then
    { mgr := { flags := s.flags, conn_avail := s.conn_avail }, rc := -ECONNREFUSED,
      cbCalls := conn_mgr_release_state cbRegistered s.flags s.conn_avail }
  else
    { mgr := { flags := (conn_mgr_adv_start advOk s.flags).1, conn_avail := s.conn_avail },
      rc := (conn_mgr_adv_start advOk s.flags).2,
      cbCalls := conn_mgr_release_state cbRegistered (conn_mgr_adv_start advOk s.flags).1
        s.conn_avail }

/-! ### Worker transitions (`conn_mgr_msgq_recv` loop body) -/

/-- `struct conn_mgr_msg`: the event union. Peer handles (`struct bt_conn *`)
are abstracted as naturals. -/
inductive Msg where
  | connection (conn err : Nat)
  | disconnection (conn reason : Nat)
  | recycled
deriving Repr, DecidableEq

/-- `CONN_MGR_EVT_CONNECTION` branch: clear `ADV_CONN`, decrement
`conn_avail` (u8 arithmetic), release the retained reference when the
connection failed (`err != 0`), set `CONNECTED` otherwise. Returns the
updated record and the list of `bt_conn_unref`ed handles. -/
def conn_mgr_evt_connection (conn err : Nat) (s : ConnMgr) : ConnMgr × List Nat :=
  if err ≠ 0 then
    ({ flags := s.flags &&& (U32_MASK ^^^ BME68X_GAP_STATE_ADV_CONN),
       conn_avail := (s.conn_avail + 255) % 256 }, [conn])
  else
    ({ flags := (s.flags &&& (U32_MASK ^^^ BME68X_GAP_STATE_ADV_CONN)) |||
         BME68X_GAP_STATE_CONNECTED,
       conn_avail := (s.conn_avail + 255) % 256 }, [])

/-- `CONN_MGR_EVT_DISCONNECTION` branch: `bt_conn_unref` the handle; if
`conn_avail + 1 == CONN_MGR_MAX_CONN` clear the `CONNECTED` bit;
`conn_avail` untouched. -/
def conn_mgr_evt_disconnection (maxConn conn _reason : Nat) (s : ConnMgr) :
    ConnMgr × List Nat :=
  if s.conn_avail + 1 = maxConn then
    ({ flags := s.flags &&& (U32_MASK ^^^ BME68X_GAP_STATE_CONNECTED),
       conn_avail := s.conn_avail }, [conn])
  else
    (s, [conn])

/-- `CONN_MGR_EVT_CONN_RECYCLED` branch: increment `conn_avail` (u8). -/
def conn_mgr_evt_recycled (s : ConnMgr) : ConnMgr × List Nat :=
  ({ flags := s.flags, conn_avail := (s.conn_avail + 1) % 256 }, [])

/-- Dispatch of the per-event branch of the Worker loop body. -/
def conn_mgr_evt_branch (maxConn : Nat) (m : Msg) (s : ConnMgr) : ConnMgr × List Nat :=
  match m with
  | .connection conn err => conn_mgr_evt_connection conn err s
  | .disconnection conn reason => conn_mgr_evt_disconnection maxConn conn reason s
  | .recycled => conn_mgr_evt_recycled s

/-- Auto-resume tail shared by all Worker transitions: when `ADV_CONN` is
clear, `CFG_ADV_AUTO` is configured and `conn_avail` is nonzero, attempt
`conn_mgr_adv_start`, discarding its return code (errors are flagged and
logged only). Returns the updated record and whether the attempt was made. -/
def conn_mgr_auto_resume (advOk : Bool) (s : ConnMgr) : ConnMgr × Bool :=
  if s.flags &&& BME68X_GAP_STATE_ADV_CONN = 0 ∧
      s.flags &&& BME68X_GAP_CFG_ADV_AUTO ≠ 0 ∧ s.conn_avail ≠ 0 then
    ({ flags := (conn_mgr_adv_start advOk s.flags).1, conn_avail := s.conn_avail }, true)
  else
    (s, false)

/-- One full Worker transition (`conn_mgr_msgq_recv` body for one message):
event branch, then auto-resume tail, then commit. Returns the committed
record, the released handles and whether auto-resume attempted the
primitive. -/
def conn_mgr_handle_msg (maxConn : Nat) (advOk : Bool) (m : Msg) (s : ConnMgr) :
    ConnMgr × List Nat × Bool :=
  ((conn_mgr_auto_resume advOk (conn_mgr_evt_branch maxConn m s).1).1,
    (conn_mgr_evt_branch maxConn m s).2,
    (conn_mgr_auto_resume advOk (conn_mgr_evt_branch maxConn m s).1).2)

/-! ### Sequential runs of manager transitions

The message queue serializes all transitions: the manager state evolves by
a sequence of Worker transitions and synchronous API calls. `MgrOp` is one
such sequential step; `mgr_run` folds a sequence from a start state. -/

inductive MgrOp where
  | connected (conn err : Nat) (advOk : Bool)
  | disconnected (conn reason : Nat) (advOk : Bool)
  | recycled (advOk : Bool)
  | advStart (lockFree advOk : Bool)
deriving Repr, DecidableEq

def mgr_op_step (maxConn : Nat) (op : MgrOp) (s : ConnMgr) : ConnMgr :=
  match op with
  | .connected conn err advOk =>
      (conn_mgr_handle_msg maxConn advOk (.connection conn err) s).1
  | .disconnected conn reason advOk =>
      (conn_mgr_handle_msg maxConn advOk (.disconnection conn reason) s).1
  | .recycled advOk =>
      (conn_mgr_handle_msg maxConn advOk .recycled s).1
  | .advStart lockFree advOk =>
      (bme68x_esp_gap_adv_start false lockFree advOk s).mgr

def mgr_run (maxConn : Nat) (ops : List MgrOp) (s : ConnMgr) : ConnMgr :=
  ops.foldl (fun t op => mgr_op_step maxConn op t) s

/-! ### Producer callbacks, bounded message queue and reference counting

`K_MSGQ_DEFINE(conn_mgr_msgq, ..., CONN_MGR_MAX_MSG, ...)`: a bounded FIFO;
`conn_mgr_msgq_send` uses `k_msgq_put(..., K_NO_WAIT)` and only logs when
the queue is exhausted (the event is dropped). `cb_conn_connected` calls
`bt_conn_ref` before enqueueing; the Worker calls `bt_conn_unref`.
`retains`/`releases` log the handles passed to these primitives; `dropped`
counts lost events. -/

structure GapSys where
  mgr : ConnMgr
  queue : List Msg
  retains : List Nat
  releases : List Nat
  dropped : Nat
deriving Repr, DecidableEq

/-- `conn_mgr_msgq_send`: non-blocking enqueue; on a full queue the event
is dropped (only logged). -/
def conn_mgr_msgq_send (cap : Nat) (m : Msg) (s : GapSys) : GapSys :=
  if s.queue.length < cap then
    { s with queue := s.queue ++ [m] }
  else
    { s with dropped := s.dropped + 1 }

/-- `cb_conn_connected`: `bt_conn_ref(conn)` then enqueue the event. -/
def cb_conn_connected (cap conn err : Nat) (s : GapSys) : GapSys :=
  conn_mgr_msgq_send cap (.connection conn err) { s with retains := s.retains ++ [conn] }

/-- `cb_conn_disconnected`: enqueue the event (no retain here). -/
def cb_conn_disconnected (cap conn reason : Nat) (s : GapSys) : GapSys :=
  conn_mgr_msgq_send cap (.disconnection conn reason) s

/-- `cb_conn_recycled`: enqueue the event. -/
def cb_conn_recycled (cap : Nat) (s : GapSys) : GapSys :=
  conn_mgr_msgq_send cap .recycled s

/-- One iteration of the Worker loop: blocking dequeue (modelled as a no-op
when the queue is empty) and full transition of the head message. -/
def conn_mgr_worker_step (maxConn : Nat) (advOk : Bool) (s : GapSys) : GapSys :=
  match s.queue with
  | [] => s
  | m :: rest =>
      { s with
        mgr := (conn_mgr_handle_msg maxConn advOk m s.mgr).1
        queue := rest
        releases := s.releases ++ (conn_mgr_handle_msg maxConn advOk m s.mgr).2.1 }

/-- An execution step of the whole system: a producer callback, a Worker
iteration, or a synchronous API call. -/
inductive SysAction where
  | connected (conn err : Nat)
  | disconnected (conn reason : Nat)
  | recycled
  | worker (advOk : Bool)
  | advStart (lockFree advOk : Bool)
deriving Repr, DecidableEq

def sys_step (maxConn cap : Nat) (a : SysAction) (s : GapSys) : GapSys :=
  match a with
  | .connected conn err => cb_conn_connected cap conn err s
  | .disconnected conn reason => cb_conn_disconnected cap conn reason s
  | .recycled => cb_conn_recycled cap s
  | .worker advOk => conn_mgr_worker_step maxConn advOk s
  | .advStart lockFree advOk =>
      { s with mgr := (bme68x_esp_gap_adv_start false lockFree advOk s.mgr).mgr }

def sys_run (maxConn cap : Nat) (acts : List SysAction) (s : GapSys) : GapSys :=
  acts.foldl (fun t a => sys_step maxConn cap a t) s

/-- The system state right after `bme68x_esp_gap_init`: seeded manager,
empty queue, no references held, no event dropped. -/
def sys_init (maxConn flags0 : Nat) : GapSys :=
  { mgr := conn_manager_init maxConn flags0, queue := [], retains := [],
    releases := [], dropped := 0 }

/-! ### Event accounting over action traces -/

/-- Number of `connected` callbacks for handle `h` in a trace. -/
def nConnActs (h : Nat) : List SysAction → Nat
  | [] => 0
  | .connected conn _ :: rest => (if conn = h then 1 else 0) + nConnActs h rest
  | _ :: rest => nConnActs h rest

/-- Number of failed (`err ≠ 0`) `connected` callbacks for `h`. -/
def nFailedConnActs (h : Nat) : List SysAction → Nat
  | [] => 0
  | .connected conn err :: rest =>
      (if conn = h ∧ err ≠ 0 then 1 else 0) + nFailedConnActs h rest
  | _ :: rest => nFailedConnActs h rest

/-- Number of successful (`err = 0`) `connected` callbacks for `h`. -/
def nOkConnActs (h : Nat) : List SysAction → Nat
  | [] => 0
  | .connected conn err :: rest =>
      (if conn = h ∧ err = 0 then 1 else 0) + nOkConnActs h rest
  | _ :: rest => nOkConnActs h rest

/-- Number of `disconnected` callbacks for `h`. -/
def nDiscActs (h : Nat) : List SysAction → Nat
  | [] => 0
  | .disconnected conn _ :: rest => (if conn = h then 1 else 0) + nDiscActs h rest
  | _ :: rest => nDiscActs h rest

/-- How many `bt_conn_unref(h)` the Worker will perform for a queued
message. -/
def msgRel (h : Nat) : Msg → Nat
  | .connection conn err => if conn = h ∧ err ≠ 0 then 1 else 0
  | .disconnection conn _ => if conn = h then 1 else 0
  | .recycled => 0

/-- Releases of `h` still pending in the queue. -/
def pendingRel (h : Nat) (q : List Msg) : Nat :=
  (q.map (msgRel h)).sum

/-- Occurrences of handle `h` in a retain/release log. -/
def countRef (h : Nat) : List Nat → Nat
  | [] => 0
  | x :: rest => (if x = h then 1 else 0) + countRef h rest

/-! ### Counting `MgrOp` sequences (for the slot-counter invariant) -/

/-- Number of `Connected` transitions in a sequential run. -/
def nConnOps : List MgrOp → Nat
  | [] => 0
  | .connected _ _ _ :: rest => 1 + nConnOps rest
  | _ :: rest => nConnOps rest

/-- Number of `SlotRecycled` transitions in a sequential run. -/
def nRecOps : List MgrOp → Nat
  | [] => 0
  | .recycled _ :: rest => 1 + nRecOps rest
  | _ :: rest => nRecOps rest

/-- Environment well-formedness of a transition sequence with respect to
the slot pool: a `Connected` event arrives only while a slot is available,
a `SlotRecycled` event only while the pool is not full. The Bluetooth
stack guarantees this (it never admits more than `CONFIG_BT_MAX_CONN`
concurrent connections, and only recycles previously consumed slots). -/
def slotsWF (maxConn : Nat) : List MgrOp → Nat → Bool
  | [], _ => true
  | .connected _ _ _ :: rest, avail => decide (0 < avail) && slotsWF maxConn rest (avail - 1)
  | .recycled _ :: rest, avail => decide (avail < maxConn) && slotsWF maxConn rest (avail + 1)
  | _ :: rest, avail => slotsWF maxConn rest avail

/-! ### Bit-level helper lemmas -/

theorem and_pow2_ne_zero (f i : Nat) : (f &&& 2 ^ i ≠ 0) ↔ f.testBit i = true := by
  rw [Nat.and_two_pow]
  cases h : f.testBit i <;> simp [h]

theorem and_pow2_eq_zero (f i : Nat) : (f &&& 2 ^ i = 0) ↔ f.testBit i = false := by
  rw [Nat.and_two_pow]
  cases h : f.testBit i <;> simp [h]

theorem ADV_CONN_two_pow : BME68X_GAP_STATE_ADV_CONN = 2 ^ 16 := by decide

theorem CONNECTED_two_pow : BME68X_GAP_STATE_CONNECTED = 2 ^ 17 := by decide

theorem ADV_AUTO_two_pow : BME68X_GAP_CFG_ADV_AUTO = 2 ^ 0 := by decide

theorem and_adv_ne_zero (f : Nat) :
    (f &&& BME68X_GAP_STATE_ADV_CONN ≠ 0) ↔ f.testBit 16 = true := by
  rw [ADV_CONN_two_pow]; exact and_pow2_ne_zero f 16

theorem and_adv_eq_zero (f : Nat) :
    (f &&& BME68X_GAP_STATE_ADV_CONN = 0) ↔ f.testBit 16 = false := by
  rw [ADV_CONN_two_pow]; exact and_pow2_eq_zero f 16

theorem and_auto_ne_zero (f : Nat) :
    (f &&& BME68X_GAP_CFG_ADV_AUTO ≠ 0) ↔ f.testBit 0 = true := by
  rw [ADV_AUTO_two_pow]; exact and_pow2_ne_zero f 0

/- `testBit` of the constant masks, at the four bit positions of interest. -/

theorem clrAdv_testBit (f : Nat) :
    ((f &&& (U32_MASK ^^^ BME68X_GAP_STATE_ADV_CONN)).testBit 16 = false) ∧
    ((f &&& (U32_MASK ^^^ BME68X_GAP_STATE_ADV_CONN)).testBit 0 = f.testBit 0) ∧
    ((f &&& (U32_MASK ^^^ BME68X_GAP_STATE_ADV_CONN)).testBit 17 = f.testBit 17) ∧
    ((f &&& (U32_MASK ^^^ BME68X_GAP_STATE_ADV_CONN)).testBit 24 = f.testBit 24) := by
  refine ⟨?_, ?_, ?_, ?_⟩
  · rw [Nat.testBit_and,
      (by decide : (U32_MASK ^^^ BME68X_GAP_STATE_ADV_CONN).testBit 16 = false), Bool.and_false]
  · rw [Nat.testBit_and,
      (by decide : (U32_MASK ^^^ BME68X_GAP_STATE_ADV_CONN).testBit 0 = true), Bool.and_true]
  · rw [Nat.testBit_and,
      (by decide : (U32_MASK ^^^ BME68X_GAP_STATE_ADV_CONN).testBit 17 = true), Bool.and_true]
  · rw [Nat.testBit_and,
      (by decide : (U32_MASK ^^^ BME68X_GAP_STATE_ADV_CONN).testBit 24 = true), Bool.and_true]

theorem clrConn_testBit (f : Nat) :
    ((f &&& (U32_MASK ^^^ BME68X_GAP_STATE_CONNECTED)).testBit 17 = false) ∧
    ((f &&& (U32_MASK ^^^ BME68X_GAP_STATE_CONNECTED)).testBit 0 = f.testBit 0) ∧
    ((f &&& (U32_MASK ^^^ BME68X_GAP_STATE_CONNECTED)).testBit 16 = f.testBit 16) ∧
    ((f &&& (U32_MASK ^^^ BME68X_GAP_STATE_CONNECTED)).testBit 24 = f.testBit 24) := by
  refine ⟨?_, ?_, ?_, ?_⟩
  · rw [Nat.testBit_and,
      (by decide : (U32_MASK ^^^ BME68X_GAP_STATE_CONNECTED).testBit 17 = false), Bool.and_false]
  · rw [Nat.testBit_and,
      (by decide : (U32_MASK ^^^ BME68X_GAP_STATE_CONNECTED).testBit 0 = true), Bool.and_true]
  · rw [Nat.testBit_and,
      (by decide : (U32_MASK ^^^ BME68X_GAP_STATE_CONNECTED).testBit 16 = true), Bool.and_true]
  · rw [Nat.testBit_and,
      (by decide : (U32_MASK ^^^ BME68X_GAP_STATE_CONNECTED).testBit 24 = true), Bool.and_true]

theorem clrNet_testBit (f : Nat) :
    ((f &&& (U32_MASK ^^^ BME68X_GAP_STATE_ENETDOWN)).testBit 24 = false) ∧
    ((f &&& (U32_MASK ^^^ BME68X_GAP_STATE_ENETDOWN)).testBit 0 = f.testBit 0) ∧
    ((f &&& (U32_MASK ^^^ BME68X_GAP_STATE_ENETDOWN)).testBit 16 = f.testBit 16) ∧
    ((f &&& (U32_MASK ^^^ BME68X_GAP_STATE_ENETDOWN)).testBit 17 = f.testBit 17) := by
  refine ⟨?_, ?_, ?_, ?_⟩
  · rw [Nat.testBit_and,
      (by decide : (U32_MASK ^^^ BME68X_GAP_STATE_ENETDOWN).testBit 24 = false), Bool.and_false]
  · rw [Nat.testBit_and,
      (by decide : (U32_MASK ^^^ BME68X_GAP_STATE_ENETDOWN).testBit 0 = true), Bool.and_true]
  · rw [Nat.testBit_and,
      (by decide : (U32_MASK ^^^ BME68X_GAP_STATE_ENETDOWN).testBit 16 = true), Bool.and_true]
  · rw [Nat.testBit_and,
      (by decide : (U32_MASK ^^^ BME68X_GAP_STATE_ENETDOWN).testBit 17 = true), Bool.and_true]

theorem orAdv_testBit (f : Nat) :
    ((f ||| BME68X_GAP_STATE_ADV_CONN).testBit 16 = true) ∧
    ((f ||| BME68X_GAP_STATE_ADV_CONN).testBit 0 = f.testBit 0) ∧
    ((f ||| BME68X_GAP_STATE_ADV_CONN).testBit 17 = f.testBit 17) ∧
    ((f ||| BME68X_GAP_STATE_ADV_CONN).testBit 24 = f.testBit 24) := by
  refine ⟨?_, ?_, ?_, ?_⟩
  · rw [Nat.testBit_or,
      (by decide : BME68X_GAP_STATE_ADV_CONN.testBit 16 = true), Bool.or_true]
  · rw [Nat.testBit_or,
      (by decide : BME68X_GAP_STATE_ADV_CONN.testBit 0 = false), Bool.or_false]
  · rw [Nat.testBit_or,
      (by decide : BME68X_GAP_STATE_ADV_CONN.testBit 17 = false), Bool.or_false]
  · rw [Nat.testBit_or,
      (by decide : BME68X_GAP_STATE_ADV_CONN.testBit 24 = false), Bool.or_false]

theorem orConn_testBit (f : Nat) :
    ((f ||| BME68X_GAP_STATE_CONNECTED).testBit 17 = true) ∧
    ((f ||| BME68X_GAP_STATE_CONNECTED).testBit 0 = f.testBit 0) ∧
    ((f ||| BME68X_GAP_STATE_CONNECTED).testBit 16 = f.testBit 16) ∧
    ((f ||| BME68X_GAP_STATE_CONNECTED).testBit 24 = f.testBit 24) := by
  refine ⟨?_, ?_, ?_, ?_⟩
  · rw [Nat.testBit_or,
      (by decide : BME68X_GAP_STATE_CONNECTED.testBit 17 = true), Bool.or_true]
  · rw [Nat.testBit_or,
      (by decide : BME68X_GAP_STATE_CONNECTED.testBit 0 = false), Bool.or_false]
  · rw [Nat.testBit_or,
      (by decide : BME68X_GAP_STATE_CONNECTED.testBit 16 = false), Bool.or_false]
  · rw [Nat.testBit_or,
      (by decide : BME68X_GAP_STATE_CONNECTED.testBit 24 = false), Bool.or_false]

theorem orNet_testBit (f : Nat) :
    ((f ||| BME68X_GAP_STATE_ENETDOWN).testBit 24 = true) ∧
    ((f ||| BME68X_GAP_STATE_ENETDOWN).testBit 0 = f.testBit 0) ∧
    ((f ||| BME68X_GAP_STATE_ENETDOWN).testBit 16 = f.testBit 16) ∧
    ((f ||| BME68X_GAP_STATE_ENETDOWN).testBit 17 = f.testBit 17) := by
  refine ⟨?_, ?_, ?_, ?_⟩
  · rw [Nat.testBit_or,
      (by decide : BME68X_GAP_STATE_ENETDOWN.testBit 24 = true), Bool.or_true]
  · rw [Nat.testBit_or,
      (by decide : BME68X_GAP_STATE_ENETDOWN.testBit 0 = false), Bool.or_false]
  · rw [Nat.testBit_or,
      (by decide : BME68X_GAP_STATE_ENETDOWN.testBit 16 = false), Bool.or_false]
  · rw [Nat.testBit_or,
      (by decide : BME68X_GAP_STATE_ENETDOWN.testBit 17 = false), Bool.or_false]

/-! ### Structural lemmas about the transitions -/

theorem conn_mgr_auto_resume_conn_avail (advOk : Bool) (s : ConnMgr) :
    (conn_mgr_auto_resume advOk s).1.conn_avail = s.conn_avail := by
  unfold conn_mgr_auto_resume
  split <;> rfl

theorem conn_mgr_auto_resume_attempted (advOk : Bool) (s : ConnMgr)
    (h : (conn_mgr_auto_resume advOk s).2 = true) :
    (conn_mgr_auto_resume advOk s).1 =
      { flags := (conn_mgr_adv_start advOk s.flags).1, conn_avail := s.conn_avail } := by
  unfold conn_mgr_auto_resume at h ⊢
  split at h
  · rename_i hc
    rw [if_pos hc]
  · exact absurd h Bool.false_ne_true

theorem conn_mgr_auto_resume_of_not_auto (advOk : Bool) (s : ConnMgr)
    (h : s.flags.testBit 0 = false) : (conn_mgr_auto_resume advOk s).1 = s := by
  unfold conn_mgr_auto_resume
  split
  · rename_i hc
    exfalso
    have hb := hc.2.1
    rw [and_auto_ne_zero, h] at hb
    exact Bool.false_ne_true hb
  · rfl

theorem conn_mgr_handle_msg_conn_avail (maxConn : Nat) (advOk : Bool) (m : Msg) (s : ConnMgr) :
    (conn_mgr_handle_msg maxConn advOk m s).1.conn_avail =
      (conn_mgr_evt_branch maxConn m s).1.conn_avail := by
  unfold conn_mgr_handle_msg
  exact conn_mgr_auto_resume_conn_avail advOk _

theorem conn_mgr_evt_branch_conn_avail (maxConn : Nat) (m : Msg) (s : ConnMgr) :
    (conn_mgr_evt_branch maxConn m s).1.conn_avail =
      match m with
      | .connection _ _ => (s.conn_avail + 255) % 256
      | .disconnection _ _ => s.conn_avail
      | .recycled => (s.conn_avail + 1) % 256 := by
  cases m with
  | connection c e =>
      simp only [conn_mgr_evt_branch, conn_mgr_evt_connection]
      by_cases he : e ≠ 0
      · rw [if_pos he]
      · rw [if_neg he]
  | disconnection c r =>
      simp only [conn_mgr_evt_branch, conn_mgr_evt_disconnection]
      by_cases hd : s.conn_avail + 1 = maxConn
      · rw [if_pos hd]
      · rw [if_neg hd]
  | recycled => rfl

theorem conn_mgr_evt_branch_testBit0 (maxConn : Nat) (m : Msg) (s : ConnMgr) :
    (conn_mgr_evt_branch maxConn m s).1.flags.testBit 0 = s.flags.testBit 0 := by
  cases m with
  | connection c e =>
      simp only [conn_mgr_evt_branch, conn_mgr_evt_connection]
      by_cases he : e ≠ 0
      · rw [if_pos he]
        exact (clrAdv_testBit s.flags).2.1
      · rw [if_neg he]
        show ((s.flags &&& (U32_MASK ^^^ BME68X_GAP_STATE_ADV_CONN)) |||
          BME68X_GAP_STATE_CONNECTED).testBit 0 = s.flags.testBit 0
        rw [(orConn_testBit _).2.1]
        exact (clrAdv_testBit s.flags).2.1
  | disconnection c r =>
      simp only [conn_mgr_evt_branch, conn_mgr_evt_disconnection]
      by_cases hd : s.conn_avail + 1 = maxConn
      · rw [if_pos hd]
        exact (clrConn_testBit s.flags).2.1
      · rw [if_neg hd]
  | recycled => rfl

/-- The event branch never sets the advertising bit: for a connection event
it is cleared, otherwise it is preserved. -/
theorem conn_mgr_evt_branch_testBit16 (maxConn : Nat) (m : Msg) (s : ConnMgr) :
    (conn_mgr_evt_branch maxConn m s).1.flags.testBit 16 =
      match m with
      | .connection _ _ => false
      | _ => s.flags.testBit 16 := by
  cases m with
  | connection c e =>
      simp only [conn_mgr_evt_branch, conn_mgr_evt_connection]
      by_cases he : e ≠ 0
      · rw [if_pos he]
        exact (clrAdv_testBit s.flags).1
      · rw [if_neg he]
        show ((s.flags &&& (U32_MASK ^^^ BME68X_GAP_STATE_ADV_CONN)) |||
          BME68X_GAP_STATE_CONNECTED).testBit 16 = false
        rw [(orConn_testBit _).2.2.1]
        exact (clrAdv_testBit s.flags).1
  | disconnection c r =>
      simp only [conn_mgr_evt_branch, conn_mgr_evt_disconnection]
      by_cases hd : s.conn_avail + 1 = maxConn
      · rw [if_pos hd]
        exact (clrConn_testBit s.flags).2.2.1
      · rw [if_neg hd]
  | recycled => rfl

theorem bme68x_esp_gap_adv_start_frame (cbR lockFree advOk : Bool) (s : ConnMgr) :
    (bme68x_esp_gap_adv_start cbR lockFree advOk s).mgr.conn_avail = s.conn_avail := by
  cases lockFree <;> unfold bme68x_esp_gap_adv_start <;> split_ifs <;> rfl

/-! Per-path characterization of the synchronous API. -/

theorem adv_start_api_busy (cbR advOk : Bool) (s : ConnMgr) :
    bme68x_esp_gap_adv_start cbR false advOk s =
      { mgr := s, rc := -EBUSY, cbCalls := [] } := rfl

theorem adv_start_api_adv_set (cbR advOk : Bool) (s : ConnMgr)
    (h : s.flags &&& BME68X_GAP_STATE_ADV_CONN ≠ 0) :
    bme68x_esp_gap_adv_start cbR true advOk s =
      { mgr := { flags := s.flags, conn_avail := s.conn_avail }, rc := -EADDRINUSE,
        cbCalls := conn_mgr_release_state cbR s.flags s.conn_avail } := by
  unfold bme68x_esp_gap_adv_start
  rw [if_neg (by decide : ¬((!true) = true)), if_pos h]

theorem adv_start_api_no_slots (cbR advOk : Bool) (s : ConnMgr)
    (h : s.flags &&& BME68X_GAP_STATE_ADV_CONN = 0) (hz : s.conn_avail = 0) :
    bme68x_esp_gap_adv_start cbR true advOk s =
      { mgr := { flags := s.flags, conn_avail := s.conn_avail }, rc := -ECONNREFUSED,
        cbCalls := conn_mgr_release_state cbR s.flags s.conn_avail } := by
  unfold bme68x_esp_gap_adv_start
  rw [if_neg (by decide : ¬((!true) = true)), if_neg (fun hc => hc h), if_pos hz]

theorem adv_start_api_go (cbR advOk : Bool) (s : ConnMgr)
    (h : s.flags &&& BME68X_GAP_STATE_ADV_CONN = 0) (hz : s.conn_avail ≠ 0) :
    bme68x_esp_gap_adv_start cbR true advOk s =
      { mgr := { flags := (conn_mgr_adv_start advOk s.flags).1, conn_avail := s.conn_avail },
        rc := (conn_mgr_adv_start advOk s.flags).2,
        cbCalls := conn_mgr_release_state cbR (conn_mgr_adv_start advOk s.flags).1
          s.conn_avail } := by
  unfold bme68x_esp_gap_adv_start
  rw [if_neg (by decide : ¬((!true) = true)), if_neg (fun hc => hc h), if_neg hz]

/-! ## Claims -/

/-- Claim C1 (corrected), counterexample to the claim as stated: the claim
asserts that `NoSlotsAvailable` and `ConnectionRefused` are distinct error
values, but `bme68x_esp_gap_adv_start` returns `-ECONNREFUSED` both when
`conn_avail == 0` (slot exhaustion, with the advertising bit clear) and
when the advertise-start primitive itself fails: the four error results
are not pairwise distinct. -/
theorem c1_counterexample :
    (bme68x_esp_gap_adv_start true true true { flags := 0, conn_avail := 0 }).rc =
      (bme68x_esp_gap_adv_start true true false { flags := 0, conn_avail := 1 }).rc ∧
    (bme68x_esp_gap_adv_start true true true { flags := 0, conn_avail := 0 }).rc =
      -ECONNREFUSED := by
  refine ⟨?_, ?_⟩ <;> decide

/-- Claim C1 (amended): for every call that acquires the lock, if the
advertising bit is set the call fails with `-EADDRINUSE`
(`AlreadyAdvertising`); otherwise if `conn_avail == 0` it fails with
`-ECONNREFUSED`, which is the same value as the `ConnectionRefused`
returned when the advertise-start primitive fails; `Busy` (`-EBUSY`),
`AlreadyAdvertising` (`-EADDRINUSE`) and `ConnectionRefused`
(`-ECONNREFUSED`) are pairwise distinct. -/
theorem c1_amended (cbR advOk : Bool) (s : ConnMgr) :
    (s.flags.testBit 16 = true →
      (bme68x_esp_gap_adv_start cbR true advOk s).rc = -EADDRINUSE) ∧
    (s.flags.testBit 16 = false → s.conn_avail = 0 →
      (bme68x_esp_gap_adv_start cbR true advOk s).rc = -ECONNREFUSED) ∧
    (s.flags.testBit 16 = false → s.conn_avail ≠ 0 → advOk = false →
      (bme68x_esp_gap_adv_start cbR true advOk s).rc = -ECONNREFUSED) ∧
    (s.flags.testBit 16 = false → s.conn_avail ≠ 0 → advOk = true →
      (bme68x_esp_gap_adv_start cbR true advOk s).rc = 0) ∧
    ((bme68x_esp_gap_adv_start cbR false advOk s).rc = -EBUSY) ∧
    (-EBUSY ≠ -EADDRINUSE ∧ -EBUSY ≠ -ECONNREFUSED ∧ -EADDRINUSE ≠ -ECONNREFUSED) := by
  refine ⟨fun h16 => ?_, fun h16 hz => ?_, fun h16 hz hko => ?_, fun h16 hz hok => ?_,
    ?_, by decide, by decide, by decide⟩
  · rw [adv_start_api_adv_set cbR advOk s ((and_adv_ne_zero s.flags).mpr h16)]
  · rw [adv_start_api_no_slots cbR advOk s ((and_adv_eq_zero s.flags).mpr h16) hz]
  · rw [adv_start_api_go cbR advOk s ((and_adv_eq_zero s.flags).mpr h16) hz, hko]
    rfl
  · rw [adv_start_api_go cbR advOk s ((and_adv_eq_zero s.flags).mpr h16) hz, hok]
    rfl
  · rw [adv_start_api_busy cbR advOk s]

/-- Claim C1 witness: the amended theorem applied at concrete states. -/
theorem c1_amended_witness :
    (bme68x_esp_gap_adv_start true true true
      { flags := BME68X_GAP_STATE_ADV_CONN, conn_avail := 1 }).rc = -EADDRINUSE ∧
    (bme68x_esp_gap_adv_start true true true { flags := 0, conn_avail := 0 }).rc =
      -ECONNREFUSED ∧
    (bme68x_esp_gap_adv_start true true false { flags := 0, conn_avail := 1 }).rc =
      -ECONNREFUSED := by
  refine ⟨?_, ?_, ?_⟩
  · exact (c1_amended true true _).1 (by decide)
  · exact (c1_amended true true _).2.1 (by decide) (by decide)
  · exact (c1_amended true false _).2.2.1 (by decide) (by decide) rfl

/-- Claim C7: on every invocation of the advertise-start step, success of
the primitive clears the error bit (bit 24) and sets the advertising bit
(bit 16) with return code 0 — in particular a succeeding attempt clears a
previously set error flag; failure sets the error bit, leaves the
advertising bit clear (when it was clear, as on every call site) and
returns `-ECONNREFUSED`. -/
theorem c7_adv_start_error_flag (advOk : Bool) (flags : Nat) :
    (advOk = true →
      (conn_mgr_adv_start advOk flags).1.testBit 24 = false ∧
      (conn_mgr_adv_start advOk flags).1.testBit 16 = true ∧
      (conn_mgr_adv_start advOk flags).2 = 0) ∧
    (advOk = false →
      (conn_mgr_adv_start advOk flags).1.testBit 24 = true ∧
      (flags.testBit 16 = false → (conn_mgr_adv_start advOk flags).1.testBit 16 = false) ∧
      (conn_mgr_adv_start advOk flags).2 = -ECONNREFUSED) := by
  cases advOk
  · refine ⟨fun h => absurd h (by decide), fun _ => ?_⟩
    refine ⟨?_, ?_, ?_⟩
    · exact (orNet_testBit flags).1
    · intro h16
      show (flags ||| BME68X_GAP_STATE_ENETDOWN).testBit 16 = false
      rw [(orNet_testBit flags).2.2.1]
      exact h16
    · rfl
  · refine ⟨fun _ => ?_, fun h => absurd h (by decide)⟩
    refine ⟨?_, ?_, ?_⟩
    · show ((flags &&& (U32_MASK ^^^ BME68X_GAP_STATE_ENETDOWN)) |||
        BME68X_GAP_STATE_ADV_CONN).testBit 24 = false
      rw [(orAdv_testBit _).2.2.2]
      exact (clrNet_testBit flags).1
    · exact (orAdv_testBit _).1
    · rfl

/-- Claim C7 witness: concrete success after failure clears the error
flag; failure on a clear state leaves advertising clear. -/
theorem c7_adv_start_error_flag_witness :
    (conn_mgr_adv_start true BME68X_GAP_STATE_ENETDOWN).1.testBit 24 = false ∧
    (conn_mgr_adv_start true 0).1.testBit 16 = true ∧
    (conn_mgr_adv_start false 0).1.testBit 16 = false := by
  refine ⟨?_, ?_, ?_⟩
  · exact ((c7_adv_start_error_flag true BME68X_GAP_STATE_ENETDOWN).1 rfl).1
  · exact ((c7_adv_start_error_flag true 0).1 rfl).2.1
  · exact ((c7_adv_start_error_flag false 0).2 rfl).2.1 (by decide)

/-- Claim C9: the synchronous API never modifies the slot counter, in
every state, for every lock outcome and every primitive outcome. -/
theorem c9_adv_start_slots_frame (cbR lockFree advOk : Bool) (s : ConnMgr) :
    (bme68x_esp_gap_adv_start cbR lockFree advOk s).mgr.conn_avail = s.conn_avail :=
  bme68x_esp_gap_adv_start_frame cbR lockFree advOk s

/-- Claim C10: every call that acquires the lock invokes the registered
state-changed callback exactly once, with the committed
`(flags, conn_avail)` pair; the busy path invokes no callback; on the
`AlreadyAdvertising` and `NoSlotsAvailable` paths the committed record is
the one read at lock acquisition. -/
theorem c10_callback_exactly_once (advOk : Bool) (s : ConnMgr) :
    ((bme68x_esp_gap_adv_start true true advOk s).cbCalls =
      [((bme68x_esp_gap_adv_start true true advOk s).mgr.flags,
        (bme68x_esp_gap_adv_start true true advOk s).mgr.conn_avail)]) ∧
    ((bme68x_esp_gap_adv_start true false advOk s).cbCalls = []) ∧
    (s.flags.testBit 16 = true → (bme68x_esp_gap_adv_start true true advOk s).mgr = s) ∧
    (s.flags.testBit 16 = false → s.conn_avail = 0 →
      (bme68x_esp_gap_adv_start true true advOk s).mgr = s) := by
  refine ⟨?_, rfl, fun h16 => ?_, fun h16 hz => ?_⟩
  · by_cases hA : s.flags &&& BME68X_GAP_STATE_ADV_CONN ≠ 0
    · rw [adv_start_api_adv_set true advOk s hA]
      rfl
    · by_cases hz : s.conn_avail = 0
      · rw [adv_start_api_no_slots true advOk s (not_not.mp hA) hz]
        rfl
      · rw [adv_start_api_go true advOk s (not_not.mp hA) hz]
        rfl
  · rw [adv_start_api_adv_set true advOk s ((and_adv_ne_zero s.flags).mpr h16)]
  · rw [adv_start_api_no_slots true advOk s ((and_adv_eq_zero s.flags).mpr h16) hz]

/-- Claim C10 witness: committed record unchanged on the failing paths at
concrete states. -/
theorem c10_callback_exactly_once_witness :
    (bme68x_esp_gap_adv_start true true true
      { flags := BME68X_GAP_STATE_ADV_CONN, conn_avail := 1 }).mgr =
      { flags := BME68X_GAP_STATE_ADV_CONN, conn_avail := 1 } ∧
    (bme68x_esp_gap_adv_start true true true { flags := 0, conn_avail := 0 }).mgr =
      { flags := 0, conn_avail := 0 } := by
  refine ⟨?_, ?_⟩
  · exact (c10_callback_exactly_once true _).2.2.1 (by decide)
  · exact (c10_callback_exactly_once true _).2.2.2 (by decide) (by decide)

/-- Claim C2 (corrected), counterexample to the claim as stated: from the
reachable state obtained by `start_advertising()` on a fresh manager with
auto-resume configured and `CONN_MGR_MAX_CONN = 2`, processing a
successful `Connected` event commits a `flags` word with BOTH the
advertising bit (16) and the connected bit (17) set, because the
auto-resume tail restarts advertising after the connected bit was set. -/
theorem c2_counterexample :
    ((mgr_run 2 [.advStart true true, .connected 7 0 true]
        (conn_manager_init 2 BME68X_GAP_CFG_ADV_AUTO)).flags.testBit 16 = true) ∧
    ((mgr_run 2 [.advStart true true, .connected 7 0 true]
        (conn_manager_init 2 BME68X_GAP_CFG_ADV_AUTO)).flags.testBit 17 = true) := by
  refine ⟨?_, ?_⟩ <;> decide

/-- Claim C2 (amended): for every `Connected` event, the event branch of
the transition (which clears advertising before evaluating the outcome)
never leaves both the advertising and connected bits set; and when
auto-resume is not configured the committed pair at the end of the full
transition never has both bits set. With auto-resume configured and slots
remaining, the auto-resume tail may legitimately re-set the advertising
bit next to the connected bit. -/
theorem c2_amended (maxConn conn err : Nat) (advOk : Bool) (s : ConnMgr) :
    ((conn_mgr_evt_branch maxConn (.connection conn err) s).1.flags.testBit 16 = false) ∧
    (s.flags.testBit 0 = false →
      ¬((conn_mgr_handle_msg maxConn advOk (.connection conn err) s).1.flags.testBit 16 = true ∧
        (conn_mgr_handle_msg maxConn advOk (.connection conn err) s).1.flags.testBit 17 =
          true)) := by
  refine ⟨conn_mgr_evt_branch_testBit16 maxConn (.connection conn err) s, ?_⟩
  intro h0 hc
  have hb0 : (conn_mgr_evt_branch maxConn (.connection conn err) s).1.flags.testBit 0 =
      false := by
    rw [conn_mgr_evt_branch_testBit0]
    exact h0
  have heq : (conn_mgr_handle_msg maxConn advOk (.connection conn err) s).1 =
      (conn_mgr_evt_branch maxConn (.connection conn err) s).1 :=
    conn_mgr_auto_resume_of_not_auto advOk _ hb0
  rw [heq] at hc
  have h16 := hc.1
  rw [conn_mgr_evt_branch_testBit16] at h16
  exact absurd h16 Bool.false_ne_true

/-- Claim C2 witness: the amended theorem at a concrete state without the
auto-resume configuration bit. -/
theorem c2_amended_witness :
    ¬((conn_mgr_handle_msg 1 true (.connection 7 0)
        { flags := 0, conn_avail := 1 }).1.flags.testBit 16 = true ∧
      (conn_mgr_handle_msg 1 true (.connection 7 0)
        { flags := 0, conn_avail := 1 }).1.flags.testBit 17 = true) :=
  (c2_amended 1 7 0 true _).2 (by decide)

/-- Claim C4: the `Connected` event branch clears the advertising bit and
decrements `conn_avail` by one (as u8 arithmetic; an exact decrement for
any in-range nonzero counter) regardless of the outcome; a failed outcome
releases the retained peer reference immediately and leaves the connected
bit unchanged; a successful outcome sets the connected bit and releases
nothing. -/
theorem c4_connected_transition (conn err : Nat) (s : ConnMgr) :
    ((conn_mgr_evt_connection conn err s).1.flags.testBit 16 = false) ∧
    ((conn_mgr_evt_connection conn err s).1.conn_avail = (s.conn_avail + 255) % 256) ∧
    (0 < s.conn_avail → s.conn_avail < 256 →
      (conn_mgr_evt_connection conn err s).1.conn_avail = s.conn_avail - 1) ∧
    (err ≠ 0 → (conn_mgr_evt_connection conn err s).2 = [conn] ∧
      (conn_mgr_evt_connection conn err s).1.flags.testBit 17 = s.flags.testBit 17) ∧
    (err = 0 → (conn_mgr_evt_connection conn err s).2 = [] ∧
      (conn_mgr_evt_connection conn err s).1.flags.testBit 17 = true) := by
  have havail : (conn_mgr_evt_connection conn err s).1.conn_avail =
      (s.conn_avail + 255) % 256 := by
    unfold conn_mgr_evt_connection
    by_cases he : err ≠ 0
    · rw [if_pos he]
    · rw [if_neg he]
  refine ⟨?_, havail, ?_, fun he => ?_, fun he => ?_⟩
  · unfold conn_mgr_evt_connection
    by_cases he : err ≠ 0
    · rw [if_pos he]
      exact (clrAdv_testBit s.flags).1
    · rw [if_neg he]
      show ((s.flags &&& (U32_MASK ^^^ BME68X_GAP_STATE_ADV_CONN)) |||
        BME68X_GAP_STATE_CONNECTED).testBit 16 = false
      rw [(orConn_testBit _).2.2.1]
      exact (clrAdv_testBit s.flags).1
  · intro hpos hlt
    rw [havail]
    omega
  · unfold conn_mgr_evt_connection
    rw [if_pos he]
    exact ⟨rfl, (clrAdv_testBit s.flags).2.2.1⟩
  · unfold conn_mgr_evt_connection
    rw [if_neg (fun hne => hne he)]
    exact ⟨rfl, (orConn_testBit _).1⟩

/-- Claim C4 witness: the theorem at concrete failed and successful
connection events. -/
theorem c4_connected_transition_witness :
    ((conn_mgr_evt_connection 7 1 ⟨BME68X_GAP_STATE_ADV_CONN, 1⟩).1.conn_avail = 0) ∧
    ((conn_mgr_evt_connection 7 1 ⟨BME68X_GAP_STATE_ADV_CONN, 1⟩).2 = [7]) ∧
    ((conn_mgr_evt_connection 9 0 ⟨BME68X_GAP_STATE_ADV_CONN, 1⟩).1.flags.testBit 17 =
      true) := by
  refine ⟨?_, ?_, ?_⟩
  · exact (c4_connected_transition 7 1 _).2.2.1 (by decide) (by decide)
  · exact ((c4_connected_transition 7 1 _).2.2.2.1 (by decide)).1
  · exact ((c4_connected_transition 9 0 _).2.2.2.2 rfl).2

/-- Claim C5: a `Disconnected` event never modifies `conn_avail` (neither
in the branch nor after the auto-resume tail), and before the auto-resume
check it clears the connected bit exactly when `conn_avail + 1 ==
CONN_MGR_MAX_CONN` at the moment the event is processed; in every other
case the branch leaves the `flags` word entirely unchanged. -/
theorem c5_disconnected_transition (maxConn conn reason : Nat) (advOk : Bool) (s : ConnMgr) :
    ((conn_mgr_evt_disconnection maxConn conn reason s).1.conn_avail = s.conn_avail) ∧
    (s.conn_avail + 1 = maxConn →
      (conn_mgr_evt_disconnection maxConn conn reason s).1.flags.testBit 17 = false) ∧
    (s.conn_avail + 1 ≠ maxConn →
      (conn_mgr_evt_disconnection maxConn conn reason s).1.flags = s.flags) ∧
    ((conn_mgr_handle_msg maxConn advOk (.disconnection conn reason) s).1.conn_avail =
      s.conn_avail) := by
  refine ⟨?_, fun hd => ?_, fun hd => ?_, ?_⟩
  · unfold conn_mgr_evt_disconnection
    by_cases hd : s.conn_avail + 1 = maxConn
    · rw [if_pos hd]
    · rw [if_neg hd]
  · unfold conn_mgr_evt_disconnection
    rw [if_pos hd]
    exact (clrConn_testBit s.flags).1
  · unfold conn_mgr_evt_disconnection
    rw [if_neg hd]
  · rw [conn_mgr_handle_msg_conn_avail, conn_mgr_evt_branch_conn_avail]

/-- Claim C5 witness: the theorem at the last outstanding disconnection
(`conn_avail + 1 = MAX`) and at an intermediate one. -/
theorem c5_disconnected_transition_witness :
    ((conn_mgr_evt_disconnection 1 7 19 ⟨BME68X_GAP_STATE_CONNECTED, 0⟩).1.flags.testBit 17 =
      false) ∧
    ((conn_mgr_evt_disconnection 2 7 19 ⟨BME68X_GAP_STATE_CONNECTED, 0⟩).1.flags =
      BME68X_GAP_STATE_CONNECTED) := by
  refine ⟨?_, ?_⟩
  · exact (c5_disconnected_transition 1 7 19 true _).2.1 (by decide)
  · exact (c5_disconnected_transition 2 7 19 true _).2.2.1 (by decide)

/-- Claim C6: at the end of every Worker transition the advertise-start
primitive is attempted exactly when the advertising bit is clear, the
auto-resume configuration bit is set and `conn_avail` is nonzero (all
evaluated on the post-branch state); a failed attempt sets the error bit
in the committed flags (the Worker discards the return code, so nothing is
propagated); and without the auto-resume configuration bit no Worker
transition ever sets the advertising bit. -/
theorem c6_auto_resume_check (maxConn : Nat) (advOk : Bool) (m : Msg) (s : ConnMgr) :
    ((conn_mgr_handle_msg maxConn advOk m s).2.2 = true ↔
      ((conn_mgr_evt_branch maxConn m s).1.flags.testBit 16 = false ∧
       (conn_mgr_evt_branch maxConn m s).1.flags.testBit 0 = true ∧
       (conn_mgr_evt_branch maxConn m s).1.conn_avail ≠ 0)) ∧
    ((conn_mgr_handle_msg maxConn advOk m s).2.2 = true → advOk = false →
      (conn_mgr_handle_msg maxConn advOk m s).1.flags.testBit 24 = true) ∧
    (s.flags.testBit 0 = false →
      (conn_mgr_handle_msg maxConn advOk m s).1.flags.testBit 16 = true →
      s.flags.testBit 16 = true) := by
  refine ⟨?_, ?_, ?_⟩
  · show (conn_mgr_auto_resume advOk (conn_mgr_evt_branch maxConn m s).1).2 = true ↔ _
    unfold conn_mgr_auto_resume
    split
    · rename_i hc
      exact iff_of_true rfl
        ⟨(and_adv_eq_zero _).mp hc.1, (and_auto_ne_zero _).mp hc.2.1, hc.2.2⟩
    · rename_i hc
      refine iff_of_false (fun h => Bool.false_ne_true h) (fun hr => hc ?_)
      exact ⟨(and_adv_eq_zero _).mpr hr.1, (and_auto_ne_zero _).mpr hr.2.1, hr.2.2⟩
  · intro hAtt hko
    subst hko
    have h1 := conn_mgr_auto_resume_attempted false (conn_mgr_evt_branch maxConn m s).1 hAtt
    show (conn_mgr_auto_resume false (conn_mgr_evt_branch maxConn m s).1).1.flags.testBit 24 =
      true
    rw [h1]
    exact (orNet_testBit _).1
  · intro h0 h16
    have hb0 : (conn_mgr_evt_branch maxConn m s).1.flags.testBit 0 = false := by
      rw [conn_mgr_evt_branch_testBit0]
      exact h0
    have heq : (conn_mgr_handle_msg maxConn advOk m s).1 =
        (conn_mgr_evt_branch maxConn m s).1 :=
      conn_mgr_auto_resume_of_not_auto advOk _ hb0
    rw [heq, conn_mgr_evt_branch_testBit16] at h16
    cases m with
    | connection c e => exact absurd h16 Bool.false_ne_true
    | disconnection c r => exact h16
    | recycled => exact h16

/-- Claim C6 witness: a failing auto-resume attempt after a recycle sets
the error bit; without the configuration bit the advertising bit can only
have been set before the transition. -/
theorem c6_auto_resume_check_witness :
    ((conn_mgr_handle_msg 1 false .recycled
      { flags := BME68X_GAP_CFG_ADV_AUTO, conn_avail := 0 }).1.flags.testBit 24 = true) ∧
    (({ flags := BME68X_GAP_STATE_ADV_CONN, conn_avail := 1 } : ConnMgr).flags.testBit 16 =
      true) := by
  refine ⟨?_, ?_⟩
  · exact (c6_auto_resume_check 1 false .recycled _).2.1 (by decide) rfl
  · exact (c6_auto_resume_check 1 true .recycled _).2.2 (by decide) (by decide)

/-! ### Slot-counter accounting over sequential runs (claim C3) -/

theorem mgr_run_cons (maxConn : Nat) (op : MgrOp) (ops : List MgrOp) (s : ConnMgr) :
    mgr_run maxConn (op :: ops) s = mgr_run maxConn ops (mgr_op_step maxConn op s) := rfl

theorem mgr_op_step_conn_avail (maxConn : Nat) (op : MgrOp) (s : ConnMgr) :
    (mgr_op_step maxConn op s).conn_avail =
      match op with
      | .connected _ _ _ => (s.conn_avail + 255) % 256
      | .disconnected _ _ _ => s.conn_avail
      | .recycled _ => (s.conn_avail + 1) % 256
      | .advStart _ _ => s.conn_avail := by
  cases op with
  | connected c e a =>
      show (conn_mgr_handle_msg maxConn a (.connection c e) s).1.conn_avail = _
      rw [conn_mgr_handle_msg_conn_avail, conn_mgr_evt_branch_conn_avail]
  | disconnected c r a =>
      show (conn_mgr_handle_msg maxConn a (.disconnection c r) s).1.conn_avail = _
      rw [conn_mgr_handle_msg_conn_avail, conn_mgr_evt_branch_conn_avail]
  | recycled a =>
      show (conn_mgr_handle_msg maxConn a .recycled s).1.conn_avail = _
      rw [conn_mgr_handle_msg_conn_avail, conn_mgr_evt_branch_conn_avail]
  | advStart lf a =>
      exact bme68x_esp_gap_adv_start_frame false lf a s

theorem mgr_run_slots_aux (maxConn : Nat) (hmax : maxConn ≤ 255) :
    ∀ (ops : List MgrOp) (s : ConnMgr), s.conn_avail ≤ maxConn →
      slotsWF maxConn ops s.conn_avail = true →
      (mgr_run maxConn ops s).conn_avail ≤ maxConn ∧
      (mgr_run maxConn ops s).conn_avail + nConnOps ops = s.conn_avail + nRecOps ops := by
  intro ops
  induction ops with
  | nil =>
      intro s hle _
      exact ⟨hle, rfl⟩
  | cons op rest ih =>
      intro s hle hwf
      cases op with
      | connected c e a =>
          simp only [slotsWF, Bool.and_eq_true, decide_eq_true_eq] at hwf
          have h0 : 0 < s.conn_avail := hwf.1
          have hstep : (mgr_op_step maxConn (.connected c e a) s).conn_avail =
              s.conn_avail - 1 := by
            rw [mgr_op_step_conn_avail]
            show (s.conn_avail + 255) % 256 = s.conn_avail - 1
            omega
          have hrec := ih (mgr_op_step maxConn (.connected c e a) s)
            (by rw [hstep]; omega) (by rw [hstep]; exact hwf.2)
          rw [mgr_run_cons]
          simp only [nConnOps, nRecOps]
          omega
      | disconnected c r a =>
          simp only [slotsWF] at hwf
          have hstep : (mgr_op_step maxConn (.disconnected c r a) s).conn_avail =
              s.conn_avail := by
            rw [mgr_op_step_conn_avail]
          have hrec := ih (mgr_op_step maxConn (.disconnected c r a) s)
            (by rw [hstep]; exact hle) (by rw [hstep]; exact hwf)
          rw [mgr_run_cons]
          simp only [nConnOps, nRecOps]
          omega
      | recycled a =>
          simp only [slotsWF, Bool.and_eq_true, decide_eq_true_eq] at hwf
          have h0 : s.conn_avail < maxConn := hwf.1
          have hstep : (mgr_op_step maxConn (.recycled a) s).conn_avail =
              s.conn_avail + 1 := by
            rw [mgr_op_step_conn_avail]
            show (s.conn_avail + 1) % 256 = s.conn_avail + 1
            omega
          have hrec := ih (mgr_op_step maxConn (.recycled a) s)
            (by rw [hstep]; omega) (by rw [hstep]; exact hwf.2)
          rw [mgr_run_cons]
          simp only [nConnOps, nRecOps]
          omega
      | advStart lf a =>
          simp only [slotsWF] at hwf
          have hstep : (mgr_op_step maxConn (.advStart lf a) s).conn_avail =
              s.conn_avail := by
            rw [mgr_op_step_conn_avail]
          have hrec := ih (mgr_op_step maxConn (.advStart lf a) s)
            (by rw [hstep]; exact hle) (by rw [hstep]; exact hwf)
          rw [mgr_run_cons]
          simp only [nConnOps, nRecOps]
          omega

/-- Claim C3 (corrected), counterexample to the claim as stated: from the
initial state (`conn_avail = CONN_MGR_MAX_CONN`), a single `SlotRecycled`
event — a sequence the claim quantifies over — increments the counter
past `CONN_MGR_MAX_CONN`: with `CONN_MGR_MAX_CONN = 1` the committed
counter is 2. -/
theorem c3_counterexample :
    (mgr_run 1 [.recycled true] (conn_manager_init 1 0)).conn_avail = 2 ∧
    ¬((mgr_run 1 [.recycled true] (conn_manager_init 1 0)).conn_avail ≤ 1) := by
  refine ⟨?_, ?_⟩ <;> decide

/-- Claim C3 (amended): for every sequence of Worker transitions and
`start_advertising()` calls that is well formed for the slot pool (every
`Connected` event arrives while a slot is available, every `SlotRecycled`
while the pool is not full — which is what the Bluetooth stack
guarantees), every reachable state satisfies
`0 <= slots_available <= MAX_SLOTS`; each `Connected` transition
decrements the counter exactly once and each `SlotRecycled` increments it
exactly once, so the final counter satisfies
`slots_available + #Connected = MAX_SLOTS + #SlotRecycled`. -/
theorem c3_amended (maxConn : Nat) (ops : List MgrOp) (flags0 : Nat)
    (hmax : maxConn ≤ 255)
    (hwf : slotsWF maxConn ops (conn_manager_init maxConn flags0).conn_avail = true) :
    (mgr_run maxConn ops (conn_manager_init maxConn flags0)).conn_avail ≤ maxConn ∧
    (mgr_run maxConn ops (conn_manager_init maxConn flags0)).conn_avail + nConnOps ops =
      maxConn + nRecOps ops :=
  mgr_run_slots_aux maxConn hmax ops (conn_manager_init maxConn flags0) (le_refl _) hwf

/-- Claim C3 witness: the amended theorem on a concrete well-formed
sequence (advertise, connect, disconnect, recycle) with
`CONN_MGR_MAX_CONN = 1`. -/
theorem c3_amended_witness :
    (mgr_run 1 [.advStart true true, .connected 7 0 true, .disconnected 7 0 true,
      .recycled true] (conn_manager_init 1 1)).conn_avail ≤ 1 ∧
    (mgr_run 1 [.advStart true true, .connected 7 0 true, .disconnected 7 0 true,
      .recycled true] (conn_manager_init 1 1)).conn_avail + 1 = 1 + 1 := by
  have h := c3_amended 1 [.advStart true true, .connected 7 0 true, .disconnected 7 0 true,
    .recycled true] 1 (by decide) (by decide)
  exact ⟨h.1, h.2⟩

/-! ### Reference-counting accounting over system traces (claim C8) -/

theorem sys_run_cons (maxConn cap : Nat) (a : SysAction) (acts : List SysAction) (s : GapSys) :
    sys_run maxConn cap (a :: acts) s =
      sys_run maxConn cap acts (sys_step maxConn cap a s) := rfl

theorem countRef_append (h : Nat) (l1 l2 : List Nat) :
    countRef h (l1 ++ l2) = countRef h l1 + countRef h l2 := by
  induction l1 with
  | nil => simp [countRef]
  | cons x xs ih =>
      show (if x = h then 1 else 0) + countRef h (xs ++ l2) =
        ((if x = h then 1 else 0) + countRef h xs) + countRef h l2
      rw [ih]
      omega

theorem countRef_singleton (h x : Nat) : countRef h [x] = if x = h then 1 else 0 := by
  simp [countRef]

theorem pendingRel_append (h : Nat) (q1 q2 : List Msg) :
    pendingRel h (q1 ++ q2) = pendingRel h q1 + pendingRel h q2 := by
  unfold pendingRel
  rw [List.map_append, List.sum_append]

theorem pendingRel_cons (h : Nat) (m : Msg) (q : List Msg) :
    pendingRel h (m :: q) = msgRel h m + pendingRel h q := by
  unfold pendingRel
  rw [List.map_cons, List.sum_cons]

/-- The handles released by one Worker transition are exactly those the
queued message will release. -/
theorem countRef_handle_msg_rel (maxConn : Nat) (advOk : Bool) (m : Msg) (s : ConnMgr)
    (h : Nat) :
    countRef h (conn_mgr_handle_msg maxConn advOk m s).2.1 = msgRel h m := by
  cases m with
  | connection c e =>
      show countRef h (conn_mgr_evt_connection c e s).2 = _
      by_cases he : e ≠ 0 <;> by_cases hc : c = h <;>
        simp [conn_mgr_evt_connection, msgRel, countRef, he, hc]
  | disconnection c r =>
      show countRef h (conn_mgr_evt_disconnection maxConn c r s).2 = _
      by_cases hd : s.conn_avail + 1 = maxConn <;> by_cases hc : c = h <;>
        simp [conn_mgr_evt_disconnection, msgRel, countRef, hd, hc]
  | recycled =>
      show countRef h (conn_mgr_evt_recycled s).2 = _
      simp [conn_mgr_evt_recycled, msgRel, countRef]

/-! Step equations for the system transitions. -/

theorem conn_mgr_msgq_send_ok (cap : Nat) (m : Msg) (s : GapSys)
    (hlen : s.queue.length < cap) :
    conn_mgr_msgq_send cap m s = { s with queue := s.queue ++ [m] } := by
  unfold conn_mgr_msgq_send
  rw [if_pos hlen]

theorem conn_mgr_msgq_send_full (cap : Nat) (m : Msg) (s : GapSys)
    (hlen : ¬s.queue.length < cap) :
    conn_mgr_msgq_send cap m s = { s with dropped := s.dropped + 1 } := by
  unfold conn_mgr_msgq_send
  rw [if_neg hlen]

theorem conn_mgr_worker_step_nil (maxConn : Nat) (advOk : Bool) (s : GapSys)
    (hq : s.queue = []) : conn_mgr_worker_step maxConn advOk s = s := by
  unfold conn_mgr_worker_step
  rw [hq]

theorem conn_mgr_worker_step_cons (maxConn : Nat) (advOk : Bool) (s : GapSys) (m : Msg)
    (q : List Msg) (hq : s.queue = m :: q) :
    conn_mgr_worker_step maxConn advOk s =
      { s with
        mgr := (conn_mgr_handle_msg maxConn advOk m s.mgr).1
        queue := q
        releases := s.releases ++ (conn_mgr_handle_msg maxConn advOk m s.mgr).2.1 } := by
  unfold conn_mgr_worker_step
  rw [hq]

theorem sys_step_dropped_le (maxConn cap : Nat) (a : SysAction) (s : GapSys) :
    s.dropped ≤ (sys_step maxConn cap a s).dropped := by
  cases a with
  | connected c e =>
      show s.dropped ≤ (conn_mgr_msgq_send cap (Msg.connection c e)
        { s with retains := s.retains ++ [c] }).dropped
      by_cases hlen : s.queue.length < cap
      · have hlen' : ({ s with retains := s.retains ++ [c] } : GapSys).queue.length < cap := hlen
        rw [conn_mgr_msgq_send_ok cap (Msg.connection c e) _ hlen']
      · have hlen' : ¬({ s with retains := s.retains ++ [c] } : GapSys).queue.length < cap := hlen
        rw [conn_mgr_msgq_send_full cap (Msg.connection c e) _ hlen']
        exact Nat.le_succ _
  | disconnected c r =>
      show s.dropped ≤ (conn_mgr_msgq_send cap _ s).dropped
      by_cases hlen : s.queue.length < cap
      · rw [conn_mgr_msgq_send_ok cap _ _ hlen]
      · rw [conn_mgr_msgq_send_full cap _ _ hlen]
        exact Nat.le_succ _
  | recycled =>
      show s.dropped ≤ (conn_mgr_msgq_send cap _ s).dropped
      by_cases hlen : s.queue.length < cap
      · rw [conn_mgr_msgq_send_ok cap _ _ hlen]
      · rw [conn_mgr_msgq_send_full cap _ _ hlen]
        exact Nat.le_succ _
  | worker advOk =>
      show s.dropped ≤ (conn_mgr_worker_step maxConn advOk s).dropped
      cases hq : s.queue with
      | nil => rw [conn_mgr_worker_step_nil maxConn advOk s hq]
      | cons m q => rw [conn_mgr_worker_step_cons maxConn advOk s m q hq]
  | advStart lockFree advOk => exact le_refl _

theorem sys_run_dropped_le (maxConn cap : Nat) :
    ∀ (acts : List SysAction) (s : GapSys),
      s.dropped ≤ (sys_run maxConn cap acts s).dropped := by
  intro acts
  induction acts with
  | nil => intro s; exact le_refl _
  | cons a rest ih =>
      intro s
      exact le_trans (sys_step_dropped_le maxConn cap a s) (ih (sys_step maxConn cap a s))

theorem pendingRel_singleton (h : Nat) (m : Msg) : pendingRel h [m] = msgRel h m := by
  simp [pendingRel]

/-- Reference accounting along a trace without drops: the retains of a
handle are exactly its `connected` callbacks, and the releases performed
so far plus those still pending in the queue are exactly its failed
`connected` callbacks plus its `disconnected` callbacks. -/
theorem sys_run_ref_counts (maxConn cap hnd : Nat) :
    ∀ (acts : List SysAction) (s : GapSys),
      (sys_run maxConn cap acts s).dropped = s.dropped →
      countRef hnd (sys_run maxConn cap acts s).retains =
        countRef hnd s.retains + nConnActs hnd acts ∧
      countRef hnd (sys_run maxConn cap acts s).releases +
          pendingRel hnd (sys_run maxConn cap acts s).queue =
        countRef hnd s.releases + pendingRel hnd s.queue +
          nFailedConnActs hnd acts + nDiscActs hnd acts := by
  intro acts
  induction acts with
  | nil =>
      intro s _
      refine ⟨?_, ?_⟩ <;> simp [sys_run, nConnActs, nFailedConnActs, nDiscActs]
  | cons a rest ih =>
      intro s hdrop
      have hdropR : (sys_run maxConn cap rest (sys_step maxConn cap a s)).dropped =
          s.dropped := hdrop
      have h1l := sys_step_dropped_le maxConn cap a s
      have h2l := sys_run_dropped_le maxConn cap rest (sys_step maxConn cap a s)
      have hstep_eq : (sys_step maxConn cap a s).dropped = s.dropped := by omega
      have hrest_eq : (sys_run maxConn cap rest (sys_step maxConn cap a s)).dropped =
          (sys_step maxConn cap a s).dropped := by omega
      cases a with
      | connected c e =>
          by_cases hlen : s.queue.length < cap
          · have hT : sys_step maxConn cap (SysAction.connected c e) s =
                { s with
                  queue := s.queue ++ [Msg.connection c e]
                  retains := s.retains ++ [c] } := by
              show conn_mgr_msgq_send cap (Msg.connection c e)
                { s with retains := s.retains ++ [c] } = _
              have hlen' : ({ s with retains := s.retains ++ [c] } : GapSys).queue.length <
                  cap := hlen
              rw [conn_mgr_msgq_send_ok cap (Msg.connection c e) _ hlen']
            rw [sys_run_cons, hT]
            obtain ⟨ihT1, ihT2⟩ := ih _ (by rw [hT] at hrest_eq; exact hrest_eq)
            refine ⟨?_, ?_⟩
            · rw [ihT1]
              simp only [countRef_append, countRef_singleton, nConnActs]
              by_cases hc : c = hnd <;> simp [hc] <;> omega
            · rw [ihT2]
              simp only [pendingRel_append, pendingRel_singleton, msgRel, nFailedConnActs,
                nDiscActs]
              by_cases hc : c = hnd <;> by_cases he : e ≠ 0 <;> simp [hc, he] <;> omega
          · exfalso
            have hT : sys_step maxConn cap (SysAction.connected c e) s =
                { s with
                  retains := s.retains ++ [c]
                  dropped := s.dropped + 1 } := by
              show conn_mgr_msgq_send cap (Msg.connection c e)
                { s with retains := s.retains ++ [c] } = _
              have hlen' : ¬({ s with retains := s.retains ++ [c] } : GapSys).queue.length <
                  cap := hlen
              rw [conn_mgr_msgq_send_full cap (Msg.connection c e) _ hlen']
            rw [hT] at hstep_eq
            simp at hstep_eq
      | disconnected c r =>
          by_cases hlen : s.queue.length < cap
          · have hT : sys_step maxConn cap (SysAction.disconnected c r) s =
                { s with queue := s.queue ++ [Msg.disconnection c r] } :=
              conn_mgr_msgq_send_ok cap (Msg.disconnection c r) s hlen
            rw [sys_run_cons, hT]
            obtain ⟨ihT1, ihT2⟩ := ih _ (by rw [hT] at hrest_eq; exact hrest_eq)
            refine ⟨?_, ?_⟩
            · rw [ihT1]
              simp only [nConnActs]
            · rw [ihT2]
              simp only [pendingRel_append, pendingRel_singleton, msgRel, nFailedConnActs,
                nDiscActs]
              by_cases hc : c = hnd <;> simp [hc] <;> omega
          · exfalso
            have hT : sys_step maxConn cap (SysAction.disconnected c r) s =
                { s with dropped := s.dropped + 1 } :=
              conn_mgr_msgq_send_full cap (Msg.disconnection c r) s hlen
            rw [hT] at hstep_eq
            simp at hstep_eq
      | recycled =>
          by_cases hlen : s.queue.length < cap
          · have hT : sys_step maxConn cap SysAction.recycled s =
                { s with queue := s.queue ++ [Msg.recycled] } :=
              conn_mgr_msgq_send_ok cap Msg.recycled s hlen
            rw [sys_run_cons, hT]
            obtain ⟨ihT1, ihT2⟩ := ih _ (by rw [hT] at hrest_eq; exact hrest_eq)
            refine ⟨?_, ?_⟩
            · rw [ihT1]
              simp only [nConnActs]
            · rw [ihT2]
              simp only [pendingRel_append, pendingRel_singleton, msgRel, nFailedConnActs,
                nDiscActs]
              omega
          · exfalso
            have hT : sys_step maxConn cap SysAction.recycled s =
                { s with dropped := s.dropped + 1 } :=
              conn_mgr_msgq_send_full cap Msg.recycled s hlen
            rw [hT] at hstep_eq
            simp at hstep_eq
      | worker advOk =>
          cases hq : s.queue with
          | nil =>
              have hT : sys_step maxConn cap (SysAction.worker advOk) s = s :=
                conn_mgr_worker_step_nil maxConn advOk s hq
              rw [sys_run_cons, hT]
              obtain ⟨ihT1, ihT2⟩ := ih s (by rw [hT] at hrest_eq; exact hrest_eq)
              refine ⟨?_, ?_⟩
              · rw [ihT1]
                simp only [nConnActs]
              · rw [ihT2, hq]
                simp only [nFailedConnActs, nDiscActs]
          | cons m q =>
              have hT : sys_step maxConn cap (SysAction.worker advOk) s =
                  { s with
                    mgr := (conn_mgr_handle_msg maxConn advOk m s.mgr).1
                    queue := q
                    releases := s.releases ++
                      (conn_mgr_handle_msg maxConn advOk m s.mgr).2.1 } :=
                conn_mgr_worker_step_cons maxConn advOk s m q hq
              rw [sys_run_cons, hT]
              obtain ⟨ihT1, ihT2⟩ := ih _ (by rw [hT] at hrest_eq; exact hrest_eq)
              refine ⟨?_, ?_⟩
              · rw [ihT1]
                simp only [nConnActs]
              · rw [ihT2]
                simp only [countRef_append, countRef_handle_msg_rel, pendingRel_cons,
                  nFailedConnActs, nDiscActs]
                omega
      | advStart lockFree advOk =>
          have hT : sys_step maxConn cap (SysAction.advStart lockFree advOk) s =
              { s with
                mgr := (bme68x_esp_gap_adv_start false lockFree advOk s.mgr).mgr } := rfl
          rw [sys_run_cons, hT]
          obtain ⟨ihT1, ihT2⟩ := ih _ (by rw [hT] at hrest_eq; exact hrest_eq)
          refine ⟨?_, ?_⟩
          · rw [ihT1]
            simp only [nConnActs]
          · rw [ihT2]
            simp only [nFailedConnActs, nDiscActs]

/-- Every `connected` callback is either failed or successful. -/
theorem nConnActs_split (hnd : Nat) (acts : List SysAction) :
    nConnActs hnd acts = nFailedConnActs hnd acts + nOkConnActs hnd acts := by
  induction acts with
  | nil => rfl
  | cons a rest ih =>
      cases a with
      | connected c e =>
          simp only [nConnActs, nFailedConnActs, nOkConnActs, ih]
          by_cases hc : c = hnd <;> by_cases he : e = 0 <;> simp [hc, he] <;> omega
      | disconnected c r => simp only [nConnActs, nFailedConnActs, nOkConnActs, ih]
      | recycled => simp only [nConnActs, nFailedConnActs, nOkConnActs, ih]
      | worker advOk => simp only [nConnActs, nFailedConnActs, nOkConnActs, ih]
      | advStart lockFree advOk => simp only [nConnActs, nFailedConnActs, nOkConnActs, ih]

/-- Claim C8 (corrected), counterexample to the claim as stated: with
queue capacity `CONN_MGR_MAX_MSG = 2` (`CONFIG_BT_MAX_CONN = 1`), two
queued recycle events fill the queue, so the `Connected` callback for
handle 7 retains a reference (`bt_conn_ref` runs before the enqueue) but
its event is dropped; after the Worker drains the queue the reference is
retained once and released zero times — not exactly once. -/
theorem c8_counterexample :
    (countRef 7 (sys_run 1 2 [.recycled, .recycled, .connected 7 1, .worker true,
      .worker true, .worker true] (sys_init 1 0)).retains = 1) ∧
    (countRef 7 (sys_run 1 2 [.recycled, .recycled, .connected 7 1, .worker true,
      .worker true, .worker true] (sys_init 1 0)).releases = 0) ∧
    ((sys_run 1 2 [.recycled, .recycled, .connected 7 1, .worker true,
      .worker true, .worker true] (sys_init 1 0)).queue = []) := by
  refine ⟨?_, ?_, ?_⟩ <;> decide

/-- Claim C8 (amended): for every peer handle, in every trace in which no
event is dropped on a full queue, in which the stack delivers exactly one
`Disconnected` per successful `Connected` for that handle, and in which
the Worker has drained the queue, the reference retained for each
`Connected` event is released exactly once: the total number of releases
(`bt_conn_unref` — performed immediately by a failed `Connected`
transition, and by the `Disconnected` transition otherwise) equals the
total number of retains (`bt_conn_ref`), which equals the number of
`Connected` events. When a `Connected` or `Disconnected` event is dropped
(queue exhausted), the retained reference is never released. -/
theorem c8_amended (maxConn cap hnd flags0 : Nat) (acts : List SysAction)
    (hnodrop : (sys_run maxConn cap acts (sys_init maxConn flags0)).dropped = 0)
    (hdrained : (sys_run maxConn cap acts (sys_init maxConn flags0)).queue = [])
    (hpair : nDiscActs hnd acts = nOkConnActs hnd acts) :
    countRef hnd (sys_run maxConn cap acts (sys_init maxConn flags0)).releases =
      countRef hnd (sys_run maxConn cap acts (sys_init maxConn flags0)).retains ∧
    countRef hnd (sys_run maxConn cap acts (sys_init maxConn flags0)).retains =
      nConnActs hnd acts := by
  obtain ⟨h1, h2⟩ := sys_run_ref_counts maxConn cap hnd acts (sys_init maxConn flags0) hnodrop
  rw [hdrained] at h2
  have hs1 : (sys_init maxConn flags0).retains = [] := rfl
  have hs2 : (sys_init maxConn flags0).releases = [] := rfl
  have hs3 : (sys_init maxConn flags0).queue = [] := rfl
  rw [hs1] at h1
  rw [hs2, hs3] at h2
  have hc0 : countRef hnd ([] : List Nat) = 0 := rfl
  have hp0 : pendingRel hnd ([] : List Msg) = 0 := rfl
  rw [hc0] at h1
  rw [hc0, hp0] at h2
  have hsplit := nConnActs_split hnd acts
  refine ⟨?_, ?_⟩
  · omega
  · omega

/-- Claim C8 witness: a drop-free connect/disconnect trace in which the
handle's reference is retained once and released exactly once. -/
theorem c8_amended_witness :
    countRef 5 (sys_run 1 2 [.connected 5 0, .worker true, .disconnected 5 0, .worker true]
      (sys_init 1 0)).releases =
      countRef 5 (sys_run 1 2 [.connected 5 0, .worker true, .disconnected 5 0, .worker true]
        (sys_init 1 0)).retains ∧
    countRef 5 (sys_run 1 2 [.connected 5 0, .worker true, .disconnected 5 0, .worker true]
      (sys_init 1 0)).retains = 1 := by
  have h := c8_amended 1 2 5 0 [.connected 5 0, .worker true, .disconnected 5 0, .worker true]
    (by decide) (by decide) (by decide)
  exact ⟨h.1, h.2⟩

end BME68xGap
